import Mathlib

/-!
Shallow embedding of `deskauth` (src/oauth.go): an OAuth desktop-app
interactive login orchestrator.  Pure data is translated directly; the
collaborators (the oauth2 library, the storage backend, the ShowURL
callback, the entropy source, the network) are supplied as explicit
inputs.  The single-slot buffered channel (`make(chan resp, 1)` with
non-blocking sends) is an `Option Resp` cell; the HTTP server's handler
is a function folded over the sequence of callback requests the server
serves during one flow.
-/

/-- An OAuth token (`oauth2.Token` at the interface boundary: the fields the
repository persists and exchanges). -/
structure Token where
  accessToken : String
  tokenType : String
  refreshToken : String
  expiry : Nat
deriving Repr, DecidableEq

/-- Provider endpoint URLs (`oauth2.Endpoint`). -/
structure Endpoint where
  authURL : String
  tokenURL : String
deriving Repr, DecidableEq

/-- Provider configuration (`oauth2.Config`): the fields the repository reads
and (for `redirectURL`) mutates. -/
structure Config where
  clientID : String
  clientSecret : String
  endpoint : Endpoint
  scopes : List String
  redirectURL : String
deriving Repr, DecidableEq

/-- The distinct error values the Go code can return.  Go errors are opaque
values; this inductive records each construction site in src/oauth.go, with
the interpolated message text where there is one. -/
inductive OAuthError where
  /-- an error returned by `Storage.Read` and propagated by `TokenSource` -/
  | storageRead (msg : String)
  /-- `fmt.Errorf("unmarshaling auth config: %w", err)` in `fileStore.Read` -/
  | unmarshal (msg : String)
  /-- `errors.New("interactive authentication is unavailable")` -/
  | interactiveUnavailable
  /-- `fmt.Errorf("creating socket for local HTTP server: %w", err)` -/
  | listenFailed (msg : String)
  /-- an error returned by the `ShowURL` callback and propagated unchanged -/
  | showURLFailed (msg : String)
  /-- `fmt.Errorf("OAuth server returned error: %s", err)` -/
  | serverError (msg : String)
  /-- `errors.New("OAuth server returned invalid response, no code or error")` -/
  | invalidResponse
  /-- an error returned by `s.Serve(ln)` and delivered through the channel -/
  | serveFailed (msg : String)
  /-- an error returned by `cfg.Exchange` and propagated unchanged -/
  | exchangeFailed (msg : String)
  /-- `ctx.Err()` when the caller's context is cancelled -/
  | ctxCancelled
  /-- `fmt.Errorf("interactive auth returned no error but also no token")` -/
  | noTokenNoError
deriving Repr, DecidableEq

/-- `oauth2.Config.AuthCodeURL(state, oauth2.AccessTypeOffline)`, modelled at
the collaborator's interface boundary: the provider authorization endpoint
with the `access_type=offline`, `client_id`, `redirect_uri`, `response_type`,
`scope` and `state` query parameters (URL escaping elided). -/
def Config.AuthCodeURL (c : Config) (st : String) : String :=
  c.endpoint.authURL ++ "?access_type=offline&client_id=" ++ c.clientID ++
    "&redirect_uri=" ++ c.redirectURL ++ "&response_type=code&scope=" ++
    String.intercalate " " c.scopes ++ "&state=" ++ st

/-- The token source returned by `oauth2.Config.TokenSource(ctx, tok)`
(external collaborator): a self-refreshing wrapper around a config and a
current token.  The collaborator always returns a non-nil value. -/
structure TokenSrc where
  config : Config
  token : Token
deriving Repr, DecidableEq

/-- `oauth2.Config.TokenSource` at the interface boundary. -/
def Config.tokenSource (c : Config) (t : Token) : TokenSrc :=
  ⟨c, t⟩

/-- A callback HTTP request as the handler observes it: the URL path and the
`state`, `error` and `code` query parameters.  Go's `r.URL.Query().Get(k)`
returns `""` when the parameter is absent, so `""` here means absent, exactly
as in the code's comparisons. -/
structure Request where
  path : String
  state : String
  error : String
  code : String
deriving Repr, DecidableEq

/-- `type resp struct { code string; err error }` from `tokenInteractive`. -/
structure Resp where
  code : String
  err : Option OAuthError
deriving Repr, DecidableEq

/-- What the handler writes back to the browser on each request. -/
inductive HTTPResponse where
  /-- `http.Error(w, "not found", http.StatusNotFound)` -/
  | notFound
  /-- `http.Redirect(w, r, startURL, http.StatusFound)` -/
  | redirect (url : String)
  /-- `http.Error(w, "bad state", http.StatusPreconditionFailed)` -/
  | preconditionFailed
  /-- the static "Authentication successful, you may close this window" page -/
  | successPage
deriving Repr, DecidableEq

/-- Non-blocking send on the capacity-one channel `ch := make(chan resp, 1)`:
`select { case ch <- rsp: default: }` stores the value only when the slot is
empty, otherwise drops it. -/
def chanSend (ch : Option Resp) (rsp : Resp) : Option Resp :=
  match ch with
  | none => some rsp
  | some x => some x

/-- The `resp` value the handler builds once path and state have been
validated: an `error` parameter wins, else a `code` parameter, else the
invalid-response error. -/
def reqResp (r : Request) : Resp :=
  if r.error ≠ "" then ⟨"", some (.serverError r.error)⟩
  else if r.code ≠ "" then ⟨r.code, none⟩
  else ⟨"", some .invalidResponse⟩

/-- The HTTP handler closure in `tokenInteractive`, acting on the channel
cell: rejects wrong paths with not-found, redirects state-less requests to
`startURL`, rejects wrong state with precondition-failed, and otherwise
builds a `resp` and performs the non-blocking send before writing the
success page. -/
def handle (path st startURL : String) (ch : Option Resp) (r : Request) :
    HTTPResponse × Option Resp :=
  if r.path ≠ path then (.notFound, ch)
  else if r.state = "" then (.redirect startURL, ch)
  else if r.state ≠ st then (.preconditionFailed, ch)
  else (.successPage, chanSend ch (reqResp r))

/-- The server's serving loop: the handler folded over the requests it
serves during the flow, returning the responses written and the final
channel cell. -/
def processRequests (path st startURL : String) :
    List Request → Option Resp → List HTTPResponse × Option Resp
  | [], ch => ([], ch)
  | r :: rs, ch =>
    let p := handle path st startURL ch r
    let q := processRequests path st startURL rs p.2
    (p.1 :: q.1, q.2)

/-- The environment of one `tokenInteractive` run: the outcomes of the
collaborators it consults, in particular the entropy source (`randhex`
results), the OS listener bind, the token exchange, and the request trace
the concurrent server observes.  `cancelled` means the caller's context
fired and the `ctx.Done()` branch of the final `select` was taken;
`serveErr` is an error returned by `s.Serve(ln)` (delivered through the same
non-blocking send, after the handler's sends since `Serve` only returns once
the listener stops). -/
structure Env where
  pathNonce : String
  stateNonce : String
  listen : Except String String
  exchange : String → Option Token × Option String
  requests : List Request
  serveErr : Option String
  cancelled : Bool

/-- The `Auth` struct: provider config, optional token storage (modelled by
the result its `Read` would return, since no code path in the repository
invokes `Write`), and the optional `ShowURL` callback. -/
structure Auth where
  config : Config
  storage : Option (Except String (Option Token))
  showURL : Option (String → Except String Unit)

/-- Everything observable about one `tokenInteractive` run.  `result` is
`none` when the flow neither received a callback result nor was cancelled
(the `select` still blocks); otherwise it is the `(*oauth2.Token, error)`
pair the Go function returns.  `finalConfig` is the value of the caller's
shared `a.Config` object when the run ends (the code mutates it in place
through the copied pointer `cfg := a.Config`). -/
structure InteractiveOutcome where
  result : Option (Option Token × Option OAuthError)
  listenerBound : Bool
  shownURL : Option String
  exchangeCalls : List String
  finalConfig : Config
  httpResponses : List HTTPResponse

/-- `Auth.tokenInteractive`, translated step by step from src/oauth.go lines
146-224: guard on `ShowURL`, bind the listener, mutate `cfg.RedirectURL` in
place, build the authorization URL, run the server over the request trace,
invoke `ShowURL` with `cfg.RedirectURL`, then block on the channel/context
`select` and exchange the received code. -/
def Auth.tokenInteractive (a : Auth) (env : Env) : InteractiveOutcome :=
  match a.showURL with
  | none =>
    ⟨some (none, some .interactiveUnavailable), false, none, [], a.config, []⟩
  | some showFn =>
    let path := "/" ++ env.pathNonce
    match env.listen with
    | .error e =>
      ⟨some (none, some (.listenFailed e)), false, none, [], a.config, []⟩
    | .ok addr =>
      let cfg : Config :=
        { a.config with redirectURL := "http://" ++ addr ++ path }
      let st := env.stateNonce
      let startURL := cfg.AuthCodeURL st
      let served := processRequests path st startURL env.requests none
      let ch : Option Resp :=
        match env.serveErr with
        | some e => chanSend served.2 ⟨"", some (.serveFailed e)⟩
        | none => served.2
      match showFn cfg.redirectURL with
      | .error e =>
        ⟨some (none, some (.showURLFailed e)), true, some cfg.redirectURL,
          [], cfg, served.1⟩
      | .ok _ =>
        if env.cancelled then
          ⟨some (none, some .ctxCancelled), true, some cfg.redirectURL,
            [], cfg, served.1⟩
        else
          match ch with
          | some rsp =>
            match rsp.err with
            | some e =>
              ⟨some (none, some e), true, some cfg.redirectURL, [], cfg,
                served.1⟩
            | none =>
              let ex := env.exchange rsp.code
              ⟨some (ex.1, ex.2.map .exchangeFailed), true,
                some cfg.redirectURL, [rsp.code], cfg, served.1⟩
          | none =>
            ⟨none, true, some cfg.redirectURL, [], cfg, served.1⟩

/-- `Auth.tokenFromStorage`: `nil` storage means no token and no error,
otherwise the result of `a.Storage.Read()`. -/
def Auth.tokenFromStorage (a : Auth) : Except String (Option Token) :=
  match a.storage with
  | none => .ok none
  | some r => r

/-- Everything observable about one `Auth.TokenSource` run.  `ret` is `none`
when the call never returns (the interactive flow blocked); otherwise the
`(oauth2.TokenSource, error)` pair, each component nilable exactly as in Go.
`interactive` is the interactive sub-run when one was started, and
`storageWrites` lists the tokens passed to `Storage.Write` (no call site
exists in the repository, so it is `[]` on every path). -/
structure TSOutcome where
  ret : Option (Option TokenSrc × Option OAuthError)
  interactive : Option InteractiveOutcome
  storageWrites : List Token

/-- Whether the run bound the local listener socket. -/
def TSOutcome.listenerBound (o : TSOutcome) : Bool :=
  match o.interactive with
  | none => false
  | some r => r.listenerBound

/-- Whether the run entered the interactive flow at all. -/
def TSOutcome.interactiveRan (o : TSOutcome) : Bool :=
  o.interactive.isSome

/-- `Auth.TokenSource`, translated from src/oauth.go lines 114-130: read the
cache (errors short-circuit), wrap a cached token, otherwise run the
interactive flow, convert a nil-token/nil-error result into an explicit
error, and wrap the obtained token.  The wrap uses `a.Config` as it stands
after the interactive run (the shared object the run mutated). -/
def Auth.TokenSource (a : Auth) (env : Env) : TSOutcome :=
  match a.tokenFromStorage with
  | .error e => ⟨some (none, some (.storageRead e)), none, []⟩
  | .ok (some tok) =>
    ⟨some (some (a.config.tokenSource tok), none), none, []⟩
  | .ok none =>
    let r := a.tokenInteractive env
    match r.result with
    | none => ⟨none, some r, []⟩
    | some (_, some e) => ⟨some (none, some e), some r, []⟩
    | some (none, none) => ⟨some (none, some .noTokenNoError), some r, []⟩
    | some (some tok, none) =>
      ⟨some (some (r.finalConfig.tokenSource tok), none), some r, []⟩

/-- The possible outcomes of `os.ReadFile` as `fileStore.Read` distinguishes
them: the file does not exist, reading failed for another reason, or the
raw contents were obtained. -/
inductive FileReadOutcome where
  | notExist
  | otherError (msg : String)
  | contents (data : String)
deriving Repr, DecidableEq

/-- `fileStore.Read` (src/oauth.go lines 79-92), with `json.Unmarshal`
supplied as the external parse collaborator (`none` = unmarshal error):
a missing file is no token and no error; any other read error is returned;
contents that fail to parse are an unmarshal error; otherwise the parsed
token. -/
def fileStore.Read (file : FileReadOutcome) (parse : String → Option Token) :
    Except String (Option Token) :=
  match file with
  | .notExist => .ok none
  | .otherError e => .error e
  | .contents data =>
    match parse data with
    | none => .error ("unmarshaling auth config: bad data")
    | some t => .ok (some t)

/-- A request that makes the handler reach the send: matching path, a
present `state` parameter, and that state equal to the expected one. -/
def concluding (path st : String) (r : Request) : Prop :=
  r.path = path ∧ r.state ≠ "" ∧ r.state = st

instance (path st : String) (r : Request) : Decidable (concluding path st r) := by
  unfold concluding
  infer_instance

theorem handle_snd_some (path st u : String) (x : Resp) (r : Request) :
    (handle path st u (some x) r).2 = some x := by
  unfold handle
  split
  · rfl
  split
  · rfl
  split
  · rfl
  rfl

theorem handle_nonconcluding (path st u : String) (ch : Option Resp)
    (r : Request) (h : ¬ concluding path st r) :
    (handle path st u ch r).2 = ch := by
  unfold handle
  split
  · rfl
  next h1 =>
    split
    · rfl
    next h2 =>
      split
      · rfl
      next h3 =>
        exact absurd ⟨not_not.mp h1, h2, not_not.mp h3⟩ h

theorem handle_concluding (path st u : String) (r : Request)
    (h : concluding path st r) :
    handle path st u none r = (.successPage, some (reqResp r)) := by
  obtain ⟨h1, h2, h3⟩ := h
  unfold handle
  rw [if_neg (not_not_intro h1), if_neg h2, if_neg (not_not_intro h3)]
  rfl

theorem processRequests_snd_some (path st u : String) (rs : List Request)
    (x : Resp) :
    (processRequests path st u rs (some x)).2 = some x := by
  induction rs with
  | nil => rfl
  | cons r rs ih =>
    show (processRequests path st u rs (handle path st u (some x) r).2).2 =
      some x
    rw [handle_snd_some]
    exact ih

theorem processRequests_nonconcluding (path st u : String)
    (rs : List Request) (ch : Option Resp)
    (h : ∀ x ∈ rs, ¬ concluding path st x) :
    (processRequests path st u rs ch).2 = ch := by
  induction rs with
  | nil => rfl
  | cons r rs ih =>
    show (processRequests path st u rs (handle path st u ch r).2).2 = ch
    rw [handle_nonconcluding path st u ch r (h r (by simp))]
    exact ih fun x hx => h x (by simp [hx])

theorem processRequests_append (path st u : String)
    (as bs : List Request) (ch : Option Resp) :
    (processRequests path st u (as ++ bs) ch).2 =
      (processRequests path st u bs (processRequests path st u as ch).2).2 := by
  induction as generalizing ch with
  | nil => rfl
  | cons r as ih =>
    show (processRequests path st u (as ++ bs) (handle path st u ch r).2).2 =
      (processRequests path st u bs
        (processRequests path st u as (handle path st u ch r).2).2).2
    exact ih _

/-- The channel cell after the whole serving loop, when the request trace is
a non-concluding prefix, then a first concluding request, then anything:
the slot holds exactly the first concluding request's `resp`. -/
theorem processRequests_first_wins (path st u : String)
    (pre post : List Request) (r : Request)
    (hpre : ∀ x ∈ pre, ¬ concluding path st x)
    (hr : concluding path st r) :
    (processRequests path st u (pre ++ r :: post) none).2 = some (reqResp r) := by
  rw [processRequests_append, processRequests_nonconcluding path st u pre none hpre]
  show (processRequests path st u post (handle path st u none r).2).2 =
    some (reqResp r)
  rw [handle_concluding path st u r hr]
  exact processRequests_snd_some path st u post (reqResp r)

theorem tokenInteractive_delivered (a : Auth) (env : Env)
    (showFn : String → Except String Unit) (addr : String) (rsp : Resp)
    (h1 : a.showURL = some showFn) (h2 : env.listen = .ok addr)
    (h3 : env.cancelled = false)
    (h4 : showFn ("http://" ++ addr ++ ("/" ++ env.pathNonce)) = .ok ())
    (h5 : (processRequests ("/" ++ env.pathNonce) env.stateNonce
        (({a.config with
            redirectURL := "http://" ++ addr ++ ("/" ++ env.pathNonce)
          } : Config).AuthCodeURL env.stateNonce)
        env.requests none).2 = some rsp) :
    (a.tokenInteractive env).exchangeCalls =
      (match rsp.err with | some _ => [] | none => [rsp.code]) ∧
    (a.tokenInteractive env).result =
      (match rsp.err with
       | some e => some (none, some e)
       | none => some ((env.exchange rsp.code).1,
           (env.exchange rsp.code).2.map .exchangeFailed)) := by
  unfold Auth.tokenInteractive
  rw [h1, h2]
  simp only [h3, h4, h5]
  cases env.serveErr <;> simp only [chanSend] <;>
    cases rsp.err <;> simp

theorem tokenInteractive_responses (a : Auth) (env : Env)
    (showFn : String → Except String Unit) (addr : String)
    (h1 : a.showURL = some showFn) (h2 : env.listen = .ok addr) :
    (a.tokenInteractive env).httpResponses =
      (processRequests ("/" ++ env.pathNonce) env.stateNonce
        (({a.config with
            redirectURL := "http://" ++ addr ++ ("/" ++ env.pathNonce)
          } : Config).AuthCodeURL env.stateNonce)
        env.requests none).1 := by
  unfold Auth.tokenInteractive
  rw [h1, h2]
  dsimp only
  split
  · rfl
  split
  · rfl
  split
  · split
    · rfl
    · rfl
  · rfl

theorem tokenInteractive_blocked (a : Auth) (env : Env)
    (showFn : String → Except String Unit) (addr : String)
    (h1 : a.showURL = some showFn) (h2 : env.listen = .ok addr)
    (h3 : env.cancelled = false)
    (h4 : showFn ("http://" ++ addr ++ ("/" ++ env.pathNonce)) = .ok ())
    (h5 : (processRequests ("/" ++ env.pathNonce) env.stateNonce
        (({a.config with
            redirectURL := "http://" ++ addr ++ ("/" ++ env.pathNonce)
          } : Config).AuthCodeURL env.stateNonce)
        env.requests none).2 = none)
    (h6 : env.serveErr = none) :
    (a.tokenInteractive env).result = none ∧
    (a.tokenInteractive env).exchangeCalls = [] := by
  unfold Auth.tokenInteractive
  rw [h1, h2]
  simp only [h3, h4, h5, h6]
  simp

/-- A provider endpoint used to instantiate the theorems on concrete data. -/
def sampleEndpoint : Endpoint :=
  ⟨"https://provider.example/auth", "https://provider.example/token"⟩

/-- A provider configuration used to instantiate the theorems. -/
def sampleConfig : Config :=
  ⟨"client-1", "secret-1", sampleEndpoint, ["scope.read"], ""⟩

/-- The token the sample exchange collaborator mints for a given code. -/
def sampleToken (c : String) : Token :=
  ⟨"access-" ++ c, "Bearer", "refresh-" ++ c, 3600⟩

/-- A `ShowURL` callback that always succeeds. -/
def sampleShow : String → Except String Unit := fun _ => .ok ()

/-- An `Auth` with an empty (but present) token cache, a working `ShowURL`,
and the sample configuration. -/
def sampleAuth : Auth := ⟨sampleConfig, some (.ok none), some sampleShow⟩

/-- A well-formed callback request: matching secret path, matching state,
carrying `code=ABC123`. -/
def okRequest : Request :=
  ⟨"/a1b2c3d4e5f60718", "ffeeddccbbaa9988", "", "ABC123"⟩

/-- An environment for a fully successful interactive run: the bind
succeeds, the browser sends exactly the well-formed callback, and the
exchange mints a token from the code. -/
def sampleEnv : Env :=
  ⟨"a1b2c3d4e5f60718", "ffeeddccbbaa9988", .ok "127.0.0.1:39571",
    fun c => (some (sampleToken c), none), [okRequest], none, false⟩

/-- Claim C1 (code bug): on a run of `Auth.TokenSource` that falls back to
the interactive flow and succeeds, with a `Storage` configured (here: an
empty cache), the code never invokes `Storage.Write`, so the newly obtained
token is not persisted and a subsequent read of the cache still returns no
token — contradicting the claim (and the `Auth.Storage` field's own
documentation, "Storage saves tokens from interactive authentications for
future use") that the token is persisted to storage. -/
theorem C1_interactive_token_never_persisted :
    ((sampleAuth.TokenSource sampleEnv).ret.map fun p =>
        (p.1.map TokenSrc.token, p.2)) =
      some (some (sampleToken "ABC123"), none) ∧
    (sampleAuth.TokenSource sampleEnv).storageWrites = [] ∧
    sampleAuth.tokenFromStorage = Except.ok none :=
  ⟨rfl, rfl, rfl⟩

theorem processRequests_nil_eq (path st u : String) (ch : Option Resp) :
    processRequests path st u [] ch = ([], ch) := rfl

theorem processRequests_cons_eq (path st u : String) (r : Request)
    (rs : List Request) (ch : Option Resp) :
    processRequests path st u (r :: rs) ch =
      ((handle path st u ch r).1 ::
          (processRequests path st u rs (handle path st u ch r).2).1,
        (processRequests path st u rs (handle path st u ch r).2).2) := rfl

/-- Claim C2: for every flow instance and request trace, the first request
with matching path and correct state decides the flow; when it carries a
code, the flow concludes with exactly that code exactly once — the exchange
is invoked with precisely that one code and the result is the exchange's
outcome — no matter what further requests (including duplicate correct-state
ones) arrive afterwards, and no matter whether the server loop later
reports an error. -/
theorem C2_first_code_callback_delivered_once (a : Auth) (env : Env)
    (showFn : String → Except String Unit) (addr : String)
    (pre post : List Request) (r : Request)
    (h1 : a.showURL = some showFn) (h2 : env.listen = .ok addr)
    (h3 : env.cancelled = false)
    (h4 : showFn ("http://" ++ addr ++ ("/" ++ env.pathNonce)) = .ok ())
    (hreq : env.requests = pre ++ r :: post)
    (hpre : ∀ x ∈ pre, ¬ concluding ("/" ++ env.pathNonce) env.stateNonce x)
    (hr : concluding ("/" ++ env.pathNonce) env.stateNonce r)
    (herr : r.error = "") (hcode : r.code ≠ "") :
    (a.tokenInteractive env).exchangeCalls = [r.code] ∧
    (a.tokenInteractive env).result =
      some ((env.exchange r.code).1,
        (env.exchange r.code).2.map .exchangeFailed) := by
  have hresp : reqResp r = ⟨r.code, none⟩ := by
    unfold reqResp
    rw [if_neg (not_not_intro herr), if_pos hcode]
  have h5 : (processRequests ("/" ++ env.pathNonce) env.stateNonce
      (({a.config with
          redirectURL := "http://" ++ addr ++ ("/" ++ env.pathNonce)
        } : Config).AuthCodeURL env.stateNonce)
      env.requests none).2 = some ⟨r.code, none⟩ := by
    rw [hreq, processRequests_first_wins _ _ _ pre post r hpre hr, hresp]
  have hd := tokenInteractive_delivered a env showFn addr ⟨r.code, none⟩
    h1 h2 h3 h4 h5
  exact ⟨hd.1, hd.2⟩

/-- A request whose path does not match the secret path. -/
def otherPathRequest : Request := ⟨"/other", "", "", ""⟩

/-- A forged request: matching path but wrong state. -/
def forgedRequest : Request := ⟨"/a1b2c3d4e5f60718", "deadbeef", "", "XYZ"⟩

/-- A duplicate correct-state callback arriving after the first one. -/
def dupRequest : Request :=
  ⟨"/a1b2c3d4e5f60718", "ffeeddccbbaa9988", "", "LATER"⟩

/-- An environment whose trace has noise before the first valid callback
and a duplicate correct-state callback after it. -/
def c2Env : Env :=
  { sampleEnv with
    requests := [otherPathRequest, forgedRequest] ++ okRequest :: [dupRequest] }

/-- Witness for C2 at a concrete trace with noise and a duplicate. -/
theorem C2_witness :
    (sampleAuth.tokenInteractive c2Env).exchangeCalls = ["ABC123"] ∧
    (sampleAuth.tokenInteractive c2Env).result =
      some (some (sampleToken "ABC123"), none) := by
  have h := C2_first_code_callback_delivered_once sampleAuth c2Env sampleShow
    "127.0.0.1:39571" [otherPathRequest, forgedRequest] [dupRequest] okRequest
    rfl rfl rfl rfl rfl (by decide) (by decide) rfl (by decide)
  exact ⟨h.1, h.2⟩

/-- Counterexample to claim C3 as stated: on a concrete successful run, the
URL handed to `ShowURL` is the listener's redirect URL, which is not the
built provider authorization URL and does not contain a `state` parameter
(the handler only redirects a browser visiting it to the authorization
URL). -/
theorem C3_counterexample_shown_url_not_auth_url :
    (sampleAuth.tokenInteractive sampleEnv).shownURL =
      some "http://127.0.0.1:39571/a1b2c3d4e5f60718" ∧
    (some "http://127.0.0.1:39571/a1b2c3d4e5f60718" : Option String) ≠
      some (({sampleConfig with
          redirectURL := "http://127.0.0.1:39571/a1b2c3d4e5f60718"
        } : Config).AuthCodeURL "ffeeddccbbaa9988") ∧
    ((sampleAuth.tokenInteractive sampleEnv).shownURL.map fun u =>
        decide ("state=".data <:+: u.data)) = some false := by
  refine ⟨rfl, by decide, by decide⟩

/-- Claim C3 (amended): in every interactive flow that binds its listener,
the URL handed to the URL-presentation capability is the redirect URL — the
bound loopback address plus the secret path, exactly the value written into
the shared configuration's `RedirectURL` field — not the built provider
authorization URL. -/
theorem C3_shown_url_is_redirect_url (a : Auth) (env : Env)
    (showFn : String → Except String Unit) (addr : String)
    (h1 : a.showURL = some showFn) (h2 : env.listen = .ok addr) :
    (a.tokenInteractive env).shownURL =
      some ("http://" ++ addr ++ ("/" ++ env.pathNonce)) ∧
    (a.tokenInteractive env).shownURL =
      some (a.tokenInteractive env).finalConfig.redirectURL := by
  refine ⟨?_, ?_⟩ <;>
  · unfold Auth.tokenInteractive
    rw [h1, h2]
    dsimp only
    split
    · rfl
    split
    · rfl
    split
    · split
      · rfl
      · rfl
    · rfl

/-- Witness for the amended C3 on a concrete run. -/
theorem C3_witness :
    (sampleAuth.tokenInteractive sampleEnv).shownURL =
      some ("http://" ++ "127.0.0.1:39571" ++ ("/" ++ sampleEnv.pathNonce)) ∧
    (sampleAuth.tokenInteractive sampleEnv).shownURL =
      some (sampleAuth.tokenInteractive sampleEnv).finalConfig.redirectURL :=
  C3_shown_url_is_redirect_url sampleAuth sampleEnv sampleShow
    "127.0.0.1:39571" rfl rfl

/-- Claim C4: for every callback request with matching path and matching
state: an `error` parameter concludes the flow with that provider error and
the exchange is never invoked; otherwise a `code` parameter concludes the
flow with that code and the exchange is invoked with it; with neither, the
flow concludes with the invalid-response (malformed) error and the exchange
is never invoked. -/
theorem C4_matching_state_dispatch (a : Auth) (env : Env)
    (showFn : String → Except String Unit) (addr : String) (r : Request)
    (h1 : a.showURL = some showFn) (h2 : env.listen = .ok addr)
    (h3 : env.cancelled = false)
    (h4 : showFn ("http://" ++ addr ++ ("/" ++ env.pathNonce)) = .ok ())
    (hreq : env.requests = [r])
    (hpath : r.path = "/" ++ env.pathNonce)
    (hstate : r.state = env.stateNonce) (hne : r.state ≠ "") :
    (r.error ≠ "" →
      (a.tokenInteractive env).result =
        some (none, some (.serverError r.error)) ∧
      (a.tokenInteractive env).exchangeCalls = []) ∧
    (r.error = "" → r.code ≠ "" →
      (a.tokenInteractive env).exchangeCalls = [r.code] ∧
      (a.tokenInteractive env).result =
        some ((env.exchange r.code).1,
          (env.exchange r.code).2.map .exchangeFailed)) ∧
    (r.error = "" → r.code = "" →
      (a.tokenInteractive env).result = some (none, some .invalidResponse) ∧
      (a.tokenInteractive env).exchangeCalls = []) := by
  have hr : concluding ("/" ++ env.pathNonce) env.stateNonce r :=
    ⟨hpath, hne, hstate⟩
  have h5 : (processRequests ("/" ++ env.pathNonce) env.stateNonce
      (({a.config with
          redirectURL := "http://" ++ addr ++ ("/" ++ env.pathNonce)
        } : Config).AuthCodeURL env.stateNonce)
      env.requests none).2 = some (reqResp r) := by
    rw [hreq]
    exact processRequests_first_wins _ _ _ [] [] r (by simp) hr
  have hd := tokenInteractive_delivered a env showFn addr (reqResp r)
    h1 h2 h3 h4 h5
  refine ⟨?_, ?_, ?_⟩
  · intro herr
    rw [show reqResp r = ⟨"", some (.serverError r.error)⟩ by
      unfold reqResp; rw [if_pos herr]] at hd
    exact ⟨hd.2, hd.1⟩
  · intro herr hcode
    rw [show reqResp r = ⟨r.code, none⟩ by
      unfold reqResp; rw [if_neg (not_not_intro herr), if_pos hcode]] at hd
    exact ⟨hd.1, hd.2⟩
  · intro herr hcode
    rw [show reqResp r = ⟨"", some .invalidResponse⟩ by
      unfold reqResp;
        rw [if_neg (not_not_intro herr), if_neg (not_not_intro hcode)]] at hd
    exact ⟨hd.2, hd.1⟩

/-- A correct-state callback carrying a provider `error` parameter. -/
def errRequest : Request :=
  ⟨"/a1b2c3d4e5f60718", "ffeeddccbbaa9988", "access_denied", ""⟩

/-- An environment whose only callback carries a provider error. -/
def c4Env : Env := { sampleEnv with requests := [errRequest] }

/-- Witness for C4, error branch: the provider error is surfaced and the
exchange is never invoked. -/
theorem C4_witness :
    (sampleAuth.tokenInteractive c4Env).result =
      some (none, some (.serverError "access_denied")) ∧
    (sampleAuth.tokenInteractive c4Env).exchangeCalls = [] := by
  have h := C4_matching_state_dispatch sampleAuth c4Env sampleShow
    "127.0.0.1:39571" errRequest rfl rfl rfl rfl rfl rfl rfl (by decide)
  exact h.1 (by decide)

/-- Claim C5: a callback request with matching path but a present, wrong
`state` parameter receives the precondition-failed response and leaves the
channel cell untouched (no CallbackResult), and the flow remains awaiting:
a later legitimate request still concludes it with its code. -/
theorem C5_bad_state_rejected_flow_continues (a : Auth) (env : Env)
    (showFn : String → Except String Unit) (addr : String)
    (bad good : Request)
    (h1 : a.showURL = some showFn) (h2 : env.listen = .ok addr)
    (h3 : env.cancelled = false)
    (h4 : showFn ("http://" ++ addr ++ ("/" ++ env.pathNonce)) = .ok ())
    (hreq : env.requests = [bad, good])
    (hbpath : bad.path = "/" ++ env.pathNonce)
    (hbne : bad.state ≠ "") (hbst : bad.state ≠ env.stateNonce)
    (hgpath : good.path = "/" ++ env.pathNonce)
    (hgst : good.state = env.stateNonce) (hgne : good.state ≠ "")
    (hgerr : good.error = "") (hgcode : good.code ≠ "") :
    (∀ u ch, handle ("/" ++ env.pathNonce) env.stateNonce u ch bad =
      (.preconditionFailed, ch)) ∧
    (a.tokenInteractive env).httpResponses =
      [.preconditionFailed, .successPage] ∧
    (a.tokenInteractive env).exchangeCalls = [good.code] ∧
    (a.tokenInteractive env).result =
      some ((env.exchange good.code).1,
        (env.exchange good.code).2.map .exchangeFailed) := by
  have hb : ∀ u ch, handle ("/" ++ env.pathNonce) env.stateNonce u ch bad =
      (.preconditionFailed, ch) := by
    intro u ch
    unfold handle
    rw [if_neg (not_not_intro hbpath), if_neg hbne, if_pos hbst]
  have hg : ∀ u, handle ("/" ++ env.pathNonce) env.stateNonce u none good =
      (.successPage, some (reqResp good)) := fun u =>
    handle_concluding _ _ u good ⟨hgpath, hgne, hgst⟩
  have hrespg : reqResp good = ⟨good.code, none⟩ := by
    unfold reqResp
    rw [if_neg (not_not_intro hgerr), if_pos hgcode]
  have hcomp : ∀ u, processRequests ("/" ++ env.pathNonce) env.stateNonce u
      [bad, good] none =
      ([.preconditionFailed, .successPage], some ⟨good.code, none⟩) := by
    intro u
    rw [processRequests_cons_eq, hb, processRequests_cons_eq, hg,
      processRequests_nil_eq, hrespg]
  refine ⟨hb, ?_, ?_⟩
  · rw [tokenInteractive_responses a env showFn addr h1 h2, hreq, hcomp]
  · have h5 : (processRequests ("/" ++ env.pathNonce) env.stateNonce
        (({a.config with
            redirectURL := "http://" ++ addr ++ ("/" ++ env.pathNonce)
          } : Config).AuthCodeURL env.stateNonce)
        env.requests none).2 = some ⟨good.code, none⟩ := by
      rw [hreq, hcomp]
    have hd := tokenInteractive_delivered a env showFn addr ⟨good.code, none⟩
      h1 h2 h3 h4 h5
    exact ⟨hd.1, hd.2⟩

/-- An environment where a forged wrong-state callback arrives before the
legitimate one. -/
def c5Env : Env := { sampleEnv with requests := [forgedRequest, okRequest] }

/-- Witness for C5 on a concrete forged-then-legitimate trace. -/
theorem C5_witness :
    (∀ u ch, handle ("/" ++ c5Env.pathNonce) c5Env.stateNonce u ch
        forgedRequest = (.preconditionFailed, ch)) ∧
    (sampleAuth.tokenInteractive c5Env).httpResponses =
      [.preconditionFailed, .successPage] ∧
    (sampleAuth.tokenInteractive c5Env).exchangeCalls = ["ABC123"] ∧
    (sampleAuth.tokenInteractive c5Env).result =
      some (some (sampleToken "ABC123"), none) := by
  have h := C5_bad_state_rejected_flow_continues sampleAuth c5Env sampleShow
    "127.0.0.1:39571" forgedRequest okRequest rfl rfl rfl rfl rfl rfl
    (by decide) (by decide) rfl rfl (by decide) rfl (by decide)
  exact ⟨h.1, h.2.1, h.2.2.1, h.2.2.2⟩

/-- Claim C6: a callback request on the secret path carrying no `state`
parameter at all is answered with a redirect to the built provider
authorization URL, puts nothing in the channel cell (no CallbackResult),
and does not conclude the flow: the orchestrator is still blocked and the
exchange was never invoked. -/
theorem C6_stateless_request_redirects (a : Auth) (env : Env)
    (showFn : String → Except String Unit) (addr : String) (r : Request)
    (h1 : a.showURL = some showFn) (h2 : env.listen = .ok addr)
    (h3 : env.cancelled = false)
    (h4 : showFn ("http://" ++ addr ++ ("/" ++ env.pathNonce)) = .ok ())
    (hserve : env.serveErr = none)
    (hreq : env.requests = [r])
    (hpath : r.path = "/" ++ env.pathNonce) (hst : r.state = "") :
    (a.tokenInteractive env).httpResponses =
      [.redirect (({a.config with
          redirectURL := "http://" ++ addr ++ ("/" ++ env.pathNonce)
        } : Config).AuthCodeURL env.stateNonce)] ∧
    (a.tokenInteractive env).result = none ∧
    (a.tokenInteractive env).exchangeCalls = [] := by
  have hh : ∀ u ch, handle ("/" ++ env.pathNonce) env.stateNonce u ch r =
      (.redirect u, ch) := by
    intro u ch
    unfold handle
    rw [if_neg (not_not_intro hpath), if_pos hst]
  have hcomp : ∀ u, processRequests ("/" ++ env.pathNonce) env.stateNonce u
      [r] none = ([.redirect u], none) := by
    intro u
    rw [processRequests_cons_eq, hh, processRequests_nil_eq]
  have h5 : (processRequests ("/" ++ env.pathNonce) env.stateNonce
      (({a.config with
          redirectURL := "http://" ++ addr ++ ("/" ++ env.pathNonce)
        } : Config).AuthCodeURL env.stateNonce)
      env.requests none).2 = none := by
    rw [hreq, hcomp]
  have hbl := tokenInteractive_blocked a env showFn addr h1 h2 h3 h4 h5 hserve
  refine ⟨?_, hbl.1, hbl.2⟩
  rw [tokenInteractive_responses a env showFn addr h1 h2, hreq, hcomp]

/-- A probe request on the secret path with no query parameters at all. -/
def probeRequest : Request := ⟨"/a1b2c3d4e5f60718", "", "", ""⟩

/-- An environment whose only request is the state-less probe. -/
def c6Env : Env := { sampleEnv with requests := [probeRequest] }

/-- Witness for C6 on the concrete probe request. -/
theorem C6_witness :
    (sampleAuth.tokenInteractive c6Env).httpResponses =
      [.redirect (({sampleAuth.config with
          redirectURL := "http://" ++ "127.0.0.1:39571" ++
            ("/" ++ c6Env.pathNonce)
        } : Config).AuthCodeURL c6Env.stateNonce)] ∧
    (sampleAuth.tokenInteractive c6Env).result = none ∧
    (sampleAuth.tokenInteractive c6Env).exchangeCalls = [] :=
  C6_stateless_request_redirects sampleAuth c6Env sampleShow
    "127.0.0.1:39571" probeRequest rfl rfl rfl rfl rfl rfl rfl rfl

/-- Claim C7: with no `ShowURL` capability configured and an empty cache,
`Auth.TokenSource` fails immediately with the interactive-unavailable error
and the listener socket is never bound. -/
theorem C7_unavailable_without_show_url (a : Auth) (env : Env)
    (h1 : a.showURL = none) (h2 : a.tokenFromStorage = .ok none) :
    (a.TokenSource env).ret =
      some (none, some .interactiveUnavailable) ∧
    (a.TokenSource env).listenerBound = false := by
  have hi : a.tokenInteractive env =
      ⟨some (none, some .interactiveUnavailable), false, none, [],
        a.config, []⟩ := by
    unfold Auth.tokenInteractive
    rw [h1]
  unfold Auth.TokenSource
  rw [h2]
  dsimp only
  rw [hi]
  exact ⟨rfl, rfl⟩

/-- An `Auth` with an empty cache and no `ShowURL` capability. -/
def noShowAuth : Auth := ⟨sampleConfig, some (.ok none), none⟩

/-- Witness for C7 on the concrete capability-less `Auth`. -/
theorem C7_witness :
    (noShowAuth.TokenSource sampleEnv).ret =
      some (none, some .interactiveUnavailable) ∧
    (noShowAuth.TokenSource sampleEnv).listenerBound = false :=
  C7_unavailable_without_show_url noShowAuth sampleEnv rfl rfl

/-- Claim C8: `fileStore.Read` yields the explicit no-token result (and no
error) exactly when the backing file does not exist; contents that fail to
unmarshal are an error, not an empty cache; and any storage read error
short-circuits `Auth.TokenSource` — the interactive flow is never entered
and no listener is bound. -/
theorem C8_storage_read_semantics (f : FileReadOutcome)
    (parse : String → Option Token) (a : Auth) (env : Env) (e : String) :
    (fileStore.Read f parse = .ok none ↔ f = .notExist) ∧
    (∀ d, f = .contents d → parse d = none →
      fileStore.Read f parse = .error "unmarshaling auth config: bad data") ∧
    (a.storage = some (.error e) →
      (a.TokenSource env).ret = some (none, some (.storageRead e)) ∧
      (a.TokenSource env).interactiveRan = false ∧
      (a.TokenSource env).listenerBound = false) := by
  refine ⟨?_, ?_, ?_⟩
  · cases f with
    | notExist => simp [fileStore.Read]
    | otherError m => simp [fileStore.Read]
    | contents d =>
      unfold fileStore.Read
      cases hp : parse d <;> simp [hp]
  · intro d hd hp
    subst hd
    simp [fileStore.Read, hp]
  · intro hs
    have hst : a.tokenFromStorage = .error e := by
      unfold Auth.tokenFromStorage
      rw [hs]
    unfold Auth.TokenSource
    rw [hst]
    exact ⟨rfl, rfl, rfl⟩

/-- An `Auth` whose storage read fails hard (e.g. permission denied). -/
def corruptAuth : Auth :=
  ⟨sampleConfig, some (.error "permission denied"), some sampleShow⟩

/-- Witness for C8: a parse failure is an error, a missing file is the
explicit no-token result, and a read error short-circuits `TokenSource`. -/
theorem C8_witness :
    fileStore.Read (.contents "garbage") (fun _ => none) =
      .error "unmarshaling auth config: bad data" ∧
    fileStore.Read .notExist (fun _ => none) = .ok none ∧
    (corruptAuth.TokenSource sampleEnv).ret =
      some (none, some (.storageRead "permission denied")) ∧
    (corruptAuth.TokenSource sampleEnv).interactiveRan = false := by
  have h1 := C8_storage_read_semantics (.contents "garbage") (fun _ => none)
    corruptAuth sampleEnv "permission denied"
  have h2 := C8_storage_read_semantics .notExist (fun _ => none)
    corruptAuth sampleEnv "permission denied"
  exact ⟨h1.2.1 "garbage" rfl rfl, h2.1.mpr rfl, (h1.2.2 rfl).1,
    (h1.2.2 rfl).2.1⟩

/-- Claim C9: every interactive run that binds its listener rewrites exactly
the `RedirectURL` field of the caller's shared configuration, in place, to
the bound address plus the secret path; every other field is unchanged and
the new value is still there when the flow ends, on every exit path. -/
theorem C9_config_mutation_frame (a : Auth) (env : Env)
    (showFn : String → Except String Unit) (addr : String)
    (h1 : a.showURL = some showFn) (h2 : env.listen = .ok addr) :
    (a.tokenInteractive env).finalConfig =
      { a.config with
        redirectURL := "http://" ++ addr ++ ("/" ++ env.pathNonce) } ∧
    (a.tokenInteractive env).finalConfig.clientID = a.config.clientID ∧
    (a.tokenInteractive env).finalConfig.clientSecret =
      a.config.clientSecret ∧
    (a.tokenInteractive env).finalConfig.endpoint = a.config.endpoint ∧
    (a.tokenInteractive env).finalConfig.scopes = a.config.scopes ∧
    (a.tokenInteractive env).finalConfig.redirectURL =
      "http://" ++ addr ++ ("/" ++ env.pathNonce) := by
  have hf : (a.tokenInteractive env).finalConfig =
      { a.config with
        redirectURL := "http://" ++ addr ++ ("/" ++ env.pathNonce) } := by
    unfold Auth.tokenInteractive
    rw [h1, h2]
    dsimp only
    split
    · rfl
    split
    · rfl
    split
    · split
      · rfl
      · rfl
    · rfl
  exact ⟨hf, by rw [hf], by rw [hf], by rw [hf], by rw [hf], by rw [hf]⟩

/-- Witness for C9 on the concrete successful run. -/
theorem C9_witness :
    (sampleAuth.tokenInteractive sampleEnv).finalConfig =
      { sampleAuth.config with
        redirectURL := "http://" ++ "127.0.0.1:39571" ++
          ("/" ++ sampleEnv.pathNonce) } ∧
    (sampleAuth.tokenInteractive sampleEnv).finalConfig.clientID =
      sampleAuth.config.clientID ∧
    (sampleAuth.tokenInteractive sampleEnv).finalConfig.clientSecret =
      sampleAuth.config.clientSecret ∧
    (sampleAuth.tokenInteractive sampleEnv).finalConfig.endpoint =
      sampleAuth.config.endpoint ∧
    (sampleAuth.tokenInteractive sampleEnv).finalConfig.scopes =
      sampleAuth.config.scopes ∧
    (sampleAuth.tokenInteractive sampleEnv).finalConfig.redirectURL =
      "http://" ++ "127.0.0.1:39571" ++ ("/" ++ sampleEnv.pathNonce) :=
  C9_config_mutation_frame sampleAuth sampleEnv sampleShow
    "127.0.0.1:39571" rfl rfl

theorem TokenSource_ret_cases (a : Auth) (env : Env) :
    (a.TokenSource env).ret = none ∨
    (∃ e, (a.TokenSource env).ret = some (none, some e)) ∨
    (∃ s, (a.TokenSource env).ret = some (some s, none)) := by
  unfold Auth.TokenSource
  cases a.tokenFromStorage with
  | error e => exact .inr (.inl ⟨.storageRead e, rfl⟩)
  | ok o =>
    cases o with
    | some tok => exact .inr (.inr ⟨_, rfl⟩)
    | none =>
      dsimp only
      cases (a.tokenInteractive env).result with
      | none => exact .inl rfl
      | some q =>
        obtain ⟨t, e'⟩ := q
        cases t with
        | none =>
          cases e' with
          | some e => exact .inr (.inl ⟨e, rfl⟩)
          | none => exact .inr (.inl ⟨.noTokenNoError, rfl⟩)
        | some tok =>
          cases e' with
          | some e => exact .inr (.inl ⟨e, rfl⟩)
          | none => exact .inr (.inr ⟨_, rfl⟩)

/-- Claim C10: whenever `Auth.TokenSource` returns, exactly one of the
token source and the error is non-nil; in particular a nil-token/nil-error
interactive outcome is converted into the explicit no-token-no-error
error. -/
theorem C10_never_nil_nil (a : Auth) (env : Env) :
    (∀ p, (a.TokenSource env).ret = some p → (p.1.isSome ↔ p.2 = none)) ∧
    (a.tokenFromStorage = .ok none →
      (a.tokenInteractive env).result = some (none, none) →
      (a.TokenSource env).ret = some (none, some .noTokenNoError)) := by
  constructor
  · intro p hp
    rcases TokenSource_ret_cases a env with h | ⟨e, h⟩ | ⟨s, h⟩
    · rw [h] at hp
      exact absurd hp (by simp)
    · rw [h] at hp
      obtain rfl := Option.some_injective _ hp
      simp
    · rw [h] at hp
      obtain rfl := Option.some_injective _ hp
      simp
  · intro hst hr
    unfold Auth.TokenSource
    rw [hst]
    dsimp only
    rw [hr]

/-- An environment whose exchange collaborator misbehaves and returns
neither a token nor an error. -/
def nilNilEnv : Env := { sampleEnv with exchange := fun _ => (none, none) }

/-- Witness for C10: the nil-nil interactive outcome becomes the explicit
error, and that returned pair has exactly one non-nil component. -/
theorem C10_witness :
    (sampleAuth.TokenSource nilNilEnv).ret =
      some (none, some .noTokenNoError) ∧
    ((none : Option TokenSrc).isSome ↔
      (some OAuthError.noTokenNoError : Option OAuthError) = none) := by
  have h := C10_never_nil_nil sampleAuth nilNilEnv
  have h2 := h.2 rfl rfl
  exact ⟨h2, h.1 (none, some .noTokenNoError) h2⟩
